import Mathlib

/-!
Shallow embedding of `website/static/blog/2019-04-20-sr/sr_util.py` from the
spatialmodel/inmap repository (the current version of the blog helper; an older
generated copy lives under `website/build/`).  The module drives an external
InMAP executable: it validates the requested source-receptor model, writes the
emissions to a shapefile, lazily downloads the executable once per process,
submits a cloud job, polls its status on a fixed interval, retrieves the
output, and removes the job artifacts.

External effects (subprocess invocations, file writes, downloads) are recorded
in an explicit trace; fallible collaborators (HTTP response, subprocess exit
statuses, the stream of `cloud status` answers) are supplied by an environment
record.  Machine time appears in the Python code only inside progress-print
statements, never in control flow, so it is represented by the opaque
`jobStamp` string used to build the job name.
-/

namespace SrUtil

/-- Opening brace character, written via its code point. -/
def braceOpen : Char := Char.ofNat 123

/-- Closing brace character, written via its code point. -/
def braceClose : Char := Char.ofNat 125

/-- Single-quote character, used to spell Python error messages. -/
def squote : String := String.singleton (Char.ofNat 39)

/-- Message of the ValueError CPython raises when `str.format` meets a closing
brace that is neither doubled nor terminating a replacement field. -/
def singleBraceMsg : String :=
  "Single " ++ squote ++ String.singleton braceClose ++ squote ++
    " encountered in format string"

/-- Message of the ValueError CPython raises for a lone opening brace. -/
def singleOpenBraceMsg : String :=
  "Single " ++ squote ++ String.singleton braceOpen ++ squote ++
    " encountered in format string"

/-- Message of the ValueError CPython raises when a replacement field is not
closed before the end of the format string. -/
def expectedBraceMsg : String :=
  "expected " ++ squote ++ String.singleton braceClose ++ squote ++
    " before end of string"

/-- Split a replacement field at its closing brace: returns the field content
and the remainder of the template after the brace. -/
def splitField : List Char → Option (List Char × List Char)
  | [] => none
  | c :: rest =>
    if c = braceClose then some ([], rest)
    else
      match splitField rest with
      | some (f, r) => some (c :: f, r)
      | none => none

/-- Prefix a string onto the success value of a format computation. -/
def epre (s : String) : Except String String → Except String String
  | .ok t => .ok (s ++ t)
  | .error e => .error e

/-- Python `str.format`, restricted to the feature subset `sr_util.py` uses:
doubled braces are escapes, a replacement field is empty or the `!s`
conversion of the next positional argument (the arguments here are strings, so
`str` conversion is the identity), and a lone closing brace raises a
ValueError exactly as CPython does.  Fuel-based recursion; the wrapper supplies
enough fuel for any input. -/
def pyFormatAux : Nat → List Char → List String → Except String String
  | 0, _, _ => .error "format recursion exhausted"
  | fuel + 1, cs, args =>
    match cs with
    | [] => .ok ""
    | c :: rest =>
      if c = braceOpen then
        match rest with
        | [] => .error singleOpenBraceMsg
        | c2 :: rest2 =>
          if c2 = braceOpen then
            epre (String.singleton braceOpen) (pyFormatAux fuel rest2 args)
          else
            match splitField (c2 :: rest2) with
            | none => .error expectedBraceMsg
            | some (f, rem) =>
              if f = [] ∨ f = [Char.ofNat 33, Char.ofNat 115] then
                match args with
                | a :: args2 => epre a (pyFormatAux fuel rem args2)
                | [] => .error "Replacement index out of range"
              else .error "unsupported format field"
      else if c = braceClose then
        match rest with
        | [] => .error singleBraceMsg
        | c2 :: rest2 =>
          if c2 = braceClose then
            epre (String.singleton braceClose) (pyFormatAux fuel rest2 args)
          else .error singleBraceMsg
      else epre (String.singleton c) (pyFormatAux fuel rest args)

/-- Python `str.format` on a template, with positional string arguments. -/
def pyFormat (template : String) (args : List String) : Except String String :=
  pyFormatAux (template.length + 1) template.data args

/-- HTTP response as seen by the `requests` library: a status code and a body. -/
structure HttpResponse where
  statusCode : Nat
  content : String
deriving DecidableEq

/-- Property `Response.ok` of the `requests` library: true unless
`raise_for_status` would raise, i.e. unless the status code is a 4xx client
error or a 5xx server error. -/
def responseOk (r : HttpResponse) : Bool :=
  if 400 ≤ r.statusCode ∧ r.statusCode < 600 then false else true

/-- Errors the Python module can raise, by kind and payload. -/
inductive PyError where
  | valueError (msg : String)
  | osError (msg : String)
  | exception (msg : String)
  | calledProcessError (args : List String)
  | readFailed (path : String)
deriving DecidableEq

/-- Effect of one `_download(url, file_name)` call: the destination file's
final content and the error raised, if any.  The file is opened in `wb` mode
(truncating it) before the GET; the body is written only after `response.ok`
passes, so a failed download leaves the file empty. -/
structure DownloadEffect where
  fileContent : String
  raised : Option PyError
deriving DecidableEq

/-- The `_download` helper of `sr_util.py`: GET the url, raise
`Exception("Downloading file from ... failed")` when the response is not ok,
otherwise write the body to the (already truncated) destination file. -/
def download (url : String) (resp : HttpResponse) : DownloadEffect :=
  if responseOk resp then
    { fileContent := resp.content, raised := none }
  else
    { fileContent := ""
      raised := some (.exception ("Downloading file from " ++ url ++ " failed")) }

/-- The `model_paths` dictionary of `run_sr`, in source order. -/
def model_paths : List (String × String) :=
  [("isrm", "/data/isrmv121/isrm_v1.2.1.ncf"),
   ("apsca_q0", "/data/apsca/apsca_sr_Q0_v1.2.1.ncf"),
   ("apsca_q1", "/data/apsca/apsca_sr_Q1_v1.2.1.ncf"),
   ("apsca_q2", "/data/apsca/apsca_sr_Q2_v1.2.1.ncf"),
   ("apsca_q3", "/data/apsca/apsca_sr_Q3_v1.2.1.ncf"),
   ("apsca_q4", "/data/apsca/apsca_sr_Q4_v1.2.1.ncf")]

/-- The keys of `model_paths`, in source order. -/
def modelKeys : List String := model_paths.map Prod.fst

/-- Python `', '.join("..!s..".format(k) for k in model_paths.keys())`; the
per-key format just renders the string key itself. -/
def modelsJoined : String := String.intercalate ", " modelKeys

/-- The format template of the invalid-model message, character for character
as it appears in the Python source: backslash, doubled opening brace, a `!s`
field fragment, backslash, closing brace, and a backtick-quoted `!s` field. -/
def invalidModelTemplate : String :=
  "model must be one of \\\x7b\x7b!s\x7d\\\x7d, but is `\x7b!s\x7d`"

/-- The ValueError `run_sr` raises for a model outside `model_paths`: the
`.format` call on `invalidModelTemplate` is evaluated first, and whatever it
produces (a formatted message, or the ValueError raised by `format` itself)
becomes the ValueError the caller sees. -/
def invalidModelError (model : String) : PyError :=
  match pyFormat invalidModelTemplate [modelsJoined, model] with
  | .error e => .valueError e
  | .ok msg => .valueError msg

/-- The version string hard-coded in `run_sr`. -/
def version : String := "1.9.0"

/-- Architecture normalization in `run_sr`: `platform.machine()`, with
`x86_64` rewritten to `amd64`. -/
def archOf (machine : String) : String :=
  if machine = "x86_64" then "amd64" else machine

/-- Python `os.path.join` for the simple case used here: a directory name
without trailing slash joined with a relative file name. -/
def pathJoin (a b : String) : String := a ++ "/" ++ b

/-- Outcome of one `cloud status` subprocess invocation: a decoded, stripped
status string, or a `subprocess.CalledProcessError`. -/
inductive QueryOutcome where
  | ok (status : String)
  | procError
deriving DecidableEq

/-- Environment of one `run_sr` call: platform answers, the temporary
directory name, the timestamp rendering used in the job name, the HTTP
response served for the binary download, and the outcomes of the fallible
subprocess invocations (`cloud start`, the stream of `cloud status` answers,
`cloud output`, reading the output shapefile, `cloud delete`). -/
structure Env where
  system : String
  machine : String
  tmpdir : String
  jobStamp : String
  binResp : HttpResponse
  startOk : Bool
  status : Nat → QueryOutcome
  outputOk : Bool
  readOk : Bool
  deleteOk : Bool

/-- Externally visible effects of a `run_sr` call, in program order. -/
inductive Action where
  | writeEmis (path : String)
  | download (url : String)
  | chmod (path : String)
  | subproc (args : List String)
  | readOutput (path : String)
  | rmtree (dir : String)
deriving DecidableEq

/-- Result of the provisioning step: raised error or resolved executable. -/
inductive ProvisionOutcome where
  | ok (exe : String)
  | raised (e : PyError)
deriving DecidableEq

/-- Trace, updated `_inmap_exe` cache, and outcome of the provisioning step. -/
structure ProvisionResult where
  trace : List Action
  cache : Option String
  outcome : ProvisionOutcome
deriving DecidableEq

/-- The download-and-record step inside provisioning: `_inmap_exe` is assigned
before `_download` runs, so the cache is set even when the download raises;
`os.chmod` runs only after a successful download. -/
def dlStep (resp : HttpResponse) (exe url : String) : ProvisionResult :=
  match (download url resp).raised with
  | none => ⟨[.download url, .chmod exe], some exe, .ok exe⟩
  | some e => ⟨[.download url], some exe, .raised e⟩

/-- The `if _inmap_exe == None:` block of `run_sr`: with a cached executable
nothing happens; otherwise the OS is detected, the versioned release URL is
built per branch exactly as in the source, and the binary is downloaded and
chmod-ed; an unrecognized OS raises OSError before any download. -/
def provision (env : Env) (cache : Option String) : ProvisionResult :=
  match cache with
  | some p => ⟨[], some p, .ok p⟩
  | none =>
    let arch := archOf env.machine
    if env.system = "Windows" then
      dlStep env.binResp (pathJoin env.tmpdir ("inmap_" ++ version ++ ".exe"))
        ("https://github.com/spatialmodel/inmap/releases/download/v" ++ version ++
          "/inmap-v" ++ version ++ "-windows-" ++ arch ++ ".exe")
    else if env.system = "Darwin" then
      dlStep env.binResp (pathJoin env.tmpdir ("inmap_" ++ version))
        ("https://github.com/spatialmodel/inmap/releases/download/v" ++ version ++
          "/inmap-v" ++ version ++ "-darwin-" ++ arch)
    else if env.system = "Linux" then
      dlStep env.binResp (pathJoin env.tmpdir ("inmap_" ++ version))
        ("https://github.com/spatialmodel/inmap/releases/download/v" ++ version ++
          "/inmap-v" ++ version ++ "-linux-" ++ arch)
    else
      ⟨[], none, .raised (.osError ("invalid operating system " ++ env.system))⟩

/-- Command line of `inmap cloud start`, in source argument order. -/
def startCmd (exe jobName emisFile modelPath outputVarsJson emisUnits : String) :
    List String :=
  [exe, "cloud", "start", "--cmds=srpredict", "--version=v" ++ version,
   "--job_name=" ++ jobName, "--memory_gb=3", "--EmissionUnits=" ++ emisUnits,
   "--EmissionsShapefiles=" ++ emisFile, "--OutputVariables=" ++ outputVarsJson,
   "--SR.OutputFile=" ++ modelPath]

/-- Command line of `inmap cloud status`. -/
def statusCmd (exe jobName : String) : List String :=
  [exe, "cloud", "status", "--job_name=" ++ jobName]

/-- Command line of `inmap cloud output`. -/
def outputCmd (exe jobName : String) : List String :=
  [exe, "cloud", "output", "--job_name=" ++ jobName]

/-- Command line of `inmap cloud delete`. -/
def deleteCmd (exe jobName : String) : List String :=
  [exe, "cloud", "delete", "--job_name=" ++ jobName]

/-- Terminal result of the polling loop, carrying the total number of status
queries issued: the job completed, or a non-Running, non-Complete status was
observed and is about to be raised as a ValueError. -/
inductive PollResult where
  | complete (queries : Nat)
  | failed (status : String) (queries : Nat)
deriving DecidableEq

/-- Number of status queries a `PollResult` records. -/
def PollResult.queries : PollResult → Nat
  | .complete k => k
  | .failed _ k => k

/-- The `while True` status-polling loop of `run_sr`, one step per query, with
`i` the index of the next query and fuel bounding how many further queries we
unroll (the Python loop itself is unbounded).  A successful query returning
`Complete` breaks out; returning anything other than `Running` raises (the
ValueError is not caught by the `except subprocess.CalledProcessError`
handler); returning `Running` continues; a `CalledProcessError` from the query
is caught, printed, and the loop continues. -/
def pollAux (q : Nat → QueryOutcome) : Nat → Nat → Option PollResult
  | 0, _ => none
  | fuel + 1, i =>
    match q i with
    | .ok s =>
      if s = "Complete" then some (.complete (i + 1))
      else if s ≠ "Running" then some (.failed s (i + 1))
      else pollAux q fuel (i + 1)
    | .procError => pollAux q fuel (i + 1)

/-- The polling loop started at the first query. -/
def poll (q : Nat → QueryOutcome) (fuel : Nat) : Option PollResult :=
  pollAux q fuel 0

/-- Number of status invocations the loop performs within the given fuel:
the count recorded by the terminal result, or `fuel` queries with the loop
still running. -/
def pollCount (q : Nat → QueryOutcome) (fuel : Nat) : Nat :=
  match poll q fuel with
  | none => fuel
  | some r => r.queries

/-- Outcome of a whole `run_sr` call: still polling when the unrolling fuel
ran out with every query answered `Running` or erroring, returned normally,
or raised a Python error. -/
inductive RunOutcome where
  | polling
  | ok
  | raised (e : PyError)
deriving DecidableEq

/-- Trace, final `_inmap_exe` cache, and outcome of one `run_sr` call. -/
structure RunResult where
  trace : List Action
  cache : Option String
  outcome : RunOutcome
deriving DecidableEq

/-- Everything `run_sr` does after provisioning succeeded: `cloud start`
(checked), the polling loop (one identical `cloud status` invocation per
iteration), `cloud output` (checked), reading `{job}/OutputFile.shp`,
`shutil.rmtree` on the job directory, and `cloud delete` (checked). -/
def submitAndRun (env : Env) (exe jobName emisFile modelPath outputVarsJson
    emisUnits : String) (fuel : Nat) : List Action × RunOutcome :=
  let startArgs := startCmd exe jobName emisFile modelPath outputVarsJson emisUnits
  if env.startOk then
    let statusAct : Action := .subproc (statusCmd exe jobName)
    let statusTrace := List.replicate (pollCount env.status fuel) statusAct
    match poll env.status fuel with
    | none => (.subproc startArgs :: statusTrace, .polling)
    | some (.failed s _) =>
      (.subproc startArgs :: statusTrace, .raised (.valueError s))
    | some (.complete _) =>
      let outputArgs := outputCmd exe jobName
      let base := .subproc startArgs :: statusTrace ++ [.subproc outputArgs]
      if env.outputOk then
        let outPath := jobName ++ "/OutputFile.shp"
        if env.readOk then
          let deleteArgs := deleteCmd exe jobName
          let t := base ++ [.readOutput outPath, .rmtree jobName, .subproc deleteArgs]
          if env.deleteOk then (t, .ok)
          else (t, .raised (.calledProcessError deleteArgs))
        else (base ++ [.readOutput outPath], .raised (.readFailed outPath))
      else (base, .raised (.calledProcessError outputArgs))
  else ([.subproc startArgs], .raised (.calledProcessError startArgs))

/-- The `run_sr` function of `sr_util.py`.  In order: validate the model
against `model_paths` (raising the ValueError produced by the malformed
format template for unknown models, before any effect); build the job name
from the submission timestamp; write the emissions shapefile; normalize the
architecture; provision the executable (lazily, through the `_inmap_exe`
cache); then submit, poll, retrieve, and clean up.  `outputVarsJson` stands
for `json.dumps(output_variables)`, and `fuel` bounds how far the unbounded
polling loop is unrolled. -/
def run_sr (env : Env) (cache : Option String) (model outputVarsJson : String)
    (emisUnits : String) (fuel : Nat) : RunResult :=
  match model_paths.lookup model with
  | none => ⟨[], cache, .raised (invalidModelError model)⟩
  | some modelPath =>
    let jobName := "run_aqm_" ++ env.jobStamp
    let emisFile := pathJoin env.tmpdir (jobName ++ ".shp")
    match provision env cache with
    | ⟨pt, cache2, .raised e⟩ => ⟨.writeEmis emisFile :: pt, cache2, .raised e⟩
    | ⟨pt, cache2, .ok exe⟩ =>
      let (t, out) :=
        submitAndRun env exe jobName emisFile modelPath outputVarsJson emisUnits fuel
      ⟨.writeEmis emisFile :: (pt ++ t), cache2, out⟩

/-- Specification of one sequential `run_sr` call: environment and arguments. -/
structure CallSpec where
  env : Env
  model : String
  outputVarsJson : String
  emisUnits : String
  fuel : Nat

/-- Run a sequence of `run_sr` calls in one process, threading the
process-wide `_inmap_exe` cache from call to call. -/
def runSeq : List CallSpec → Option String → List RunResult
  | [], _ => []
  | c :: cs, cache =>
    let r := run_sr c.env cache c.model c.outputVarsJson c.emisUnits c.fuel
    r :: runSeq cs r.cache

/-- Recognize a download action. -/
def isDownload : Action → Bool
  | .download _ => true
  | _ => false

/-- Recognize a chmod action. -/
def isChmod : Action → Bool
  | .chmod _ => true
  | _ => false

/-- Recognize a `shutil.rmtree` action. -/
def isRmtree : Action → Bool
  | .rmtree _ => true
  | _ => false

/-- Recognize a `cloud delete` subprocess invocation (third argument word). -/
def isDeleteCall : Action → Bool
  | .subproc args => decide (args.getD 2 "" = "delete")
  | _ => false

/-- Recognize a `cloud status` subprocess invocation (third argument word). -/
def isStatusCall : Action → Bool
  | .subproc args => decide (args.getD 2 "" = "status")
  | _ => false

/-- Recognize any subprocess invocation. -/
def isSubproc : Action → Bool
  | .subproc _ => true
  | _ => false

/-- Number of download actions in a trace. -/
def downloads (t : List Action) : Nat := t.countP isDownload

/-- Number of `rmtree` actions in a trace. -/
def rmtrees (t : List Action) : Nat := t.countP isRmtree

/-- Number of `cloud delete` invocations in a trace. -/
def deleteCalls (t : List Action) : Nat := t.countP isDeleteCall

/-- Number of `cloud status` invocations in a trace. -/
def statusCalls (t : List Action) : Nat := t.countP isStatusCall

/-- Total downloads across a sequence of calls. -/
def totalDownloads (rs : List RunResult) : Nat :=
  (rs.map fun r => downloads r.trace).sum

/-- Build a status stream from a finite list, padding with `Running`. -/
def qOf (l : List QueryOutcome) : Nat → QueryOutcome :=
  fun i => l.getD i (.ok "Running")

/-- A baseline environment in which every external collaborator succeeds. -/
def baseEnv (q : Nat → QueryOutcome) : Env where
  system := "Linux"
  machine := "x86_64"
  tmpdir := "/tmp/run"
  jobStamp := "1555.75"
  binResp := ⟨200, "binary"⟩
  startOk := true
  status := q
  outputOk := true
  readOk := true
  deleteOk := true

/-- Counting a replicated action. -/
theorem countP_replicate {α : Type} (p : α → Bool) (n : Nat) (a : α) :
    List.countP p (List.replicate n a) = if p a then n else 0 := by
  induction n with
  | zero => simp
  | succ n ih =>
    rw [List.replicate_succ, List.countP_cons, ih]
    by_cases h : p a = true <;> simp [h]

/-- The spec's URL template for the executable download, with the operating
system name and optional `.exe` suffix abstracted. -/
def specUrl (ver osName arch suffix : String) : String :=
  "https://github.com/spatialmodel/inmap/releases/download/v" ++ ver ++
    "/inmap-v" ++ ver ++ "-" ++ osName ++ "-" ++ arch ++ suffix

/-- C7 counterexample: a 304 response is not a 2xx success, yet `_download`
raises nothing and writes the body verbatim to the destination file, because
`response.ok` in the requests library only rejects 4xx/5xx statuses. -/
theorem download_304_no_error_and_body_written :
    ¬(200 ≤ 304 ∧ 304 ≤ 299) ∧
    (download "https://example/u" ⟨304, "body"⟩).raised = none ∧
    (download "https://example/u" ⟨304, "body"⟩).fileContent = "body" := by
  decide

/-- C7 (amended): `_download` raises its download error exactly when the HTTP
status is a 4xx or 5xx (the requests library's notion of a non-ok response),
and when it raises, the destination file holds none of the response body (it
was truncated on open and never written). -/
theorem download_error_iff_4xx_5xx (url : String) (resp : HttpResponse) :
    ((download url resp).raised.isSome ↔
      400 ≤ resp.statusCode ∧ resp.statusCode < 600) ∧
    ((download url resp).raised.isSome →
      (download url resp).fileContent = "") := by
  unfold download responseOk
  by_cases h : 400 ≤ resp.statusCode ∧ resp.statusCode < 600 <;> simp [h]

/-- C7 witness: the amended statement evaluated at a concrete 404 response. -/
theorem download_error_iff_4xx_5xx_witness :
    ((download "https://example/u" ⟨404, "nope"⟩).raised.isSome ↔
      400 ≤ 404 ∧ 404 < 600) ∧
    ((download "https://example/u" ⟨404, "nope"⟩).raised.isSome →
      (download "https://example/u" ⟨404, "nope"⟩).fileContent = "") :=
  download_error_iff_4xx_5xx "https://example/u" ⟨404, "nope"⟩

/-- C8: on a first provisioning call (empty cache) with a recognized operating
system, the first effect is the download of a URL following the spec template
`.../v{version}/inmap-v{version}-{os}-{arch}[.exe]`, with the OS rendered in
lower case and the `.exe` suffix exactly when the OS is Windows. -/
theorem provision_url_follows_template (env : Env)
    (h : env.system = "Windows" ∨ env.system = "Darwin" ∨ env.system = "Linux") :
    (provision env none).trace.head? = some (.download
      (specUrl version
        (if env.system = "Windows" then "windows"
         else if env.system = "Darwin" then "darwin" else "linux")
        (archOf env.machine)
        (if env.system = "Windows" then ".exe" else ""))) := by
  rcases h with h | h | h <;> rcases hok : responseOk env.binResp <;>
    simp [provision, dlStep, download, h, hok, specUrl] <;> rfl

/-- C8 witness: the template theorem evaluated on a concrete Windows/arm64
host, yielding the literal URL. -/
theorem provision_url_follows_template_witness :
    (provision { baseEnv (qOf []) with system := "Windows", machine := "arm64" }
        none).trace.head? = some (.download
      "https://github.com/spatialmodel/inmap/releases/download/v1.9.0/inmap-v1.9.0-windows-arm64.exe") :=
  provision_url_follows_template
    { baseEnv (qOf []) with system := "Windows", machine := "arm64" } (Or.inl rfl)

/-- C3: evaluation of `run_sr` at the invalid model `bad_model`.  The call
does raise a ValueError before performing any effect (the trace is empty), but
the message is the format-parse error `Single (quote)(closing brace)(quote)
encountered in format string` — the template `model must be one of
(backslash)(brace)(brace)!s(closing)(backslash)(closing), but is ...` is
malformed for Python `str.format` (a backslash does not escape a brace), so
the intended message listing the six allowed models is never produced. -/
theorem run_sr_invalid_model_raises_garbled_message :
    run_sr (baseEnv (qOf [])) none "bad_model" "ov" "tons/year" 5 =
      ⟨[], none, .raised (.valueError singleBraceMsg)⟩ ∧
    singleBraceMsg ≠
      "model must be one of \x7bisrm, apsca_q0, apsca_q1, apsca_q2, apsca_q3, apsca_q4\x7d, but is `bad_model`" ∧
    (model_paths.all fun mp => decide
      ((Action.subproc (startCmd "/tmp/run/inmap_1.9.0" "run_aqm_1555.75"
          "/tmp/run/run_aqm_1555.75.shp" mp.2 "ov" "tons/year")) ∈
        (run_sr (baseEnv (qOf [.ok "Complete"])) none mp.1 "ov" "tons/year" 3).trace))
      = true := by
  refine ⟨by decide, by decide, by decide⟩

/-- The garbled-template lemma: for every model string, the invalid-model
ValueError carries the format-parse message, because `str.format` raises
before it ever reaches a replacement field. -/
theorem invalidModelError_msg (m : String) :
    invalidModelError m = .valueError singleBraceMsg := rfl

/-- Loop step on a swallowed query error: continue at the next query. -/
theorem pollAux_step_error (q : Nat → QueryOutcome) (fuel i : Nat)
    (hq : q i = .procError) :
    pollAux q (fuel + 1) i = pollAux q fuel (i + 1) := by
  simp only [pollAux, hq]

/-- Loop step on a `Running` answer: continue at the next query. -/
theorem pollAux_step_running (q : Nat → QueryOutcome) (fuel i : Nat)
    (hq : q i = .ok "Running") :
    pollAux q (fuel + 1) i = pollAux q fuel (i + 1) := by
  simp only [pollAux, hq]
  rfl

/-- Helper: a run of `Running` answers followed by `Complete` at offset `n`
drives the loop to a successful break after `n + 1` queries. -/
theorem pollAux_runs_then_complete (q : Nat → QueryOutcome) :
    ∀ (n i fuel : Nat), (∀ k, k < n → q (i + k) = .ok "Running") →
      q (i + n) = .ok "Complete" →
      pollAux q (fuel + n + 1) i = some (.complete (i + n + 1)) := by
  intro n
  induction n with
  | zero =>
    intro i fuel _ hc
    simp only [Nat.add_zero] at hc
    simp [pollAux, hc]
  | succ n ih =>
    intro i fuel hrun hc
    have h0 : q i = .ok "Running" := by simpa using hrun 0 (Nat.succ_pos n)
    have hstep : pollAux q (fuel + (n + 1) + 1) i = pollAux q (fuel + n + 1) (i + 1) := by
      simp [show fuel + (n + 1) + 1 = (fuel + n + 1) + 1 by omega, pollAux, h0]
    rw [hstep]
    have hrun2 : ∀ k, k < n → q (i + 1 + k) = .ok "Running" := by
      intro k hk
      have := hrun (k + 1) (by omega)
      simpa [show i + (k + 1) = i + 1 + k by omega] using this
    have hc2 : q (i + 1 + n) = .ok "Complete" := by
      simpa [show i + (n + 1) = i + 1 + n by omega] using hc
    have := ih (i + 1) fuel hrun2 hc2
    simpa [show i + 1 + n + 1 = i + (n + 1) + 1 by omega] using this

/-- Helper: if every successful status query answers `Running`, the loop
never terminates, whatever fuel it is unrolled with. -/
theorem pollAux_none_of_all_running (q : Nat → QueryOutcome)
    (hq : ∀ n s, q n = .ok s → s = "Running") :
    ∀ fuel i, pollAux q fuel i = none := by
  intro fuel
  induction fuel with
  | zero => intro i; rfl
  | succ fuel ih =>
    intro i
    rcases hqi : q i with s | _
    · have hs := hq i s hqi
      subst hs
      simp [pollAux, hqi, ih]
    · simp [pollAux, hqi, ih]

/-- Helper: a decisive answer (a successful query returning anything other
than `Running`) at offset `n` terminates the loop within `n + 1` steps. -/
theorem pollAux_some_of_decisive (q : Nat → QueryOutcome) :
    ∀ (n i : Nat) (s : String), q (i + n) = .ok s → s ≠ "Running" →
      ∃ r, pollAux q (n + 1) i = some r := by
  intro n
  induction n with
  | zero =>
    intro i s hq hs
    simp only [Nat.add_zero] at hq
    by_cases hc : s = "Complete"
    · exact ⟨.complete (i + 1), by simp [pollAux, hq, hc]⟩
    · exact ⟨.failed s (i + 1), by simp [pollAux, hq, hc, hs]⟩
  | succ n ih =>
    intro i s hq hs
    rcases hqi : q i with s' | _
    · by_cases hc : s' = "Complete"
      · exact ⟨.complete (i + 1), by simp [pollAux, hqi, hc]⟩
      · by_cases hr : s' = "Running"
        · have := ih (i + 1) s (by simpa [show i + (n + 1) = i + 1 + n by omega] using hq) hs
          rcases this with ⟨r, hrr⟩
          subst hr
          exact ⟨r, by rw [pollAux_step_running q (n + 1) i hqi]; exact hrr⟩
        · exact ⟨.failed s' (i + 1), by simp [pollAux, hqi, hc, hr]⟩
    · have := ih (i + 1) s (by simpa [show i + (n + 1) = i + 1 + n by omega] using hq) hs
      rcases this with ⟨r, hrr⟩
      exact ⟨r, by rw [pollAux_step_error q (n + 1) i hqi]; exact hrr⟩

/-- C9: the polling loop has no maximum-wait cutoff — it terminates (for some
unrolling fuel) exactly when some status query returns a value other than
`Running`; a stream answering `Running` (or erroring) forever never reaches a
terminal state, whatever fuel is granted. -/
theorem poll_no_timeout (q : Nat → QueryOutcome) :
    (∃ fuel r, poll q fuel = some r) ↔ (∃ n s, q n = .ok s ∧ s ≠ "Running") := by
  constructor
  · intro ⟨fuel, r, hr⟩
    by_contra hno
    push_neg at hno
    have : poll q fuel = none :=
      pollAux_none_of_all_running q (fun n s hq => hno n s hq) fuel 0
    rw [this] at hr
    exact Option.noConfusion hr
  · intro ⟨n, s, hq, hs⟩
    have := pollAux_some_of_decisive q n 0 s (by simpa using hq) hs
    rcases this with ⟨r, hr⟩
    exact ⟨n + 1, r, hr⟩

/-- C2: a `CalledProcessError` from the status query is swallowed — the loop
step just moves on to the next query (the state stays Running); in
particular, on the outcome sequence Running, query-error, Running, Complete
the poller reaches a successful break after exactly 4 queries, and the
corresponding `run_sr` call goes on to invoke `cloud output` (retrieval) with
exactly 4 `cloud status` invocations in its trace. -/
theorem poll_query_error_swallowed :
    (∀ (q : Nat → QueryOutcome) (fuel i : Nat), q i = .procError →
      pollAux q (fuel + 1) i = pollAux q fuel (i + 1)) ∧
    poll (qOf [.ok "Running", .procError, .ok "Running", .ok "Complete"]) 10 =
      some (.complete 4) ∧
    (run_sr (baseEnv (qOf [.ok "Running", .procError, .ok "Running", .ok "Complete"]))
        none "isrm" "ov" "tons/year" 10).outcome = .ok ∧
    statusCalls (run_sr (baseEnv (qOf [.ok "Running", .procError, .ok "Running",
        .ok "Complete"])) none "isrm" "ov" "tons/year" 10).trace = 4 ∧
    Action.subproc (outputCmd "/tmp/run/inmap_1.9.0" "run_aqm_1555.75") ∈
      (run_sr (baseEnv (qOf [.ok "Running", .procError, .ok "Running", .ok "Complete"]))
        none "isrm" "ov" "tons/year" 10).trace := by
  refine ⟨?_, by decide, by decide, by decide, by decide⟩
  intro q fuel i hq
  simp [pollAux, hq]

/-- C2 witness: the swallowing step evaluated on the error tick of the
reference sequence. -/
theorem poll_query_error_swallowed_witness :
    pollAux (qOf [.ok "Running", .procError, .ok "Running", .ok "Complete"]) 9 1 =
      pollAux (qOf [.ok "Running", .procError, .ok "Running", .ok "Complete"]) 8 2 :=
  poll_query_error_swallowed.1
    (qOf [.ok "Running", .procError, .ok "Running", .ok "Complete"]) 8 1 rfl

/-- Evaluation of `run_sr` on the all-succeeding base environment with the
`isrm` model, up to the submit-and-poll stage (which still depends on the
status stream): validation passes, the emissions file is written, the Linux
binary is downloaded and chmod-ed, and the rest is `submitAndRun`. -/
theorem run_sr_baseEnv (q : Nat → QueryOutcome) (ov eu : String) (fuel : Nat) :
    run_sr (baseEnv q) none "isrm" ov eu fuel =
      ⟨.writeEmis "/tmp/run/run_aqm_1555.75.shp" ::
        ([.download "https://github.com/spatialmodel/inmap/releases/download/v1.9.0/inmap-v1.9.0-linux-amd64",
          .chmod "/tmp/run/inmap_1.9.0"] ++
          (submitAndRun (baseEnv q) "/tmp/run/inmap_1.9.0" "run_aqm_1555.75"
            "/tmp/run/run_aqm_1555.75.shp" "/data/isrmv121/isrm_v1.2.1.ncf" ov eu fuel).1),
        some "/tmp/run/inmap_1.9.0",
        (submitAndRun (baseEnv q) "/tmp/run/inmap_1.9.0" "run_aqm_1555.75"
          "/tmp/run/run_aqm_1555.75.shp" "/data/isrmv121/isrm_v1.2.1.ncf" ov eu fuel).2⟩ :=
  rfl

/-- C5: a successful status query returning a value that is neither `Running`
nor `Complete` makes the loop raise a ValueError carrying that status string
at once — the step result is `failed` after that very query, with no further
query issued — and (for a first-query failure) the whole `run_sr` call
propagates `ValueError(status)` with exactly one `cloud status` invocation in
its trace, the transient-error handler notwithstanding. -/
theorem poll_job_failure_raises_immediately
    (q : Nat → QueryOutcome) (fuel i : Nat) (s : String)
    (hq : q i = .ok s) (hr : s ≠ "Running") (hc : s ≠ "Complete") :
    pollAux q (fuel + 1) i = some (.failed s (i + 1)) ∧
    (i = 0 →
      (run_sr (baseEnv q) none "isrm" "ov" "tons/year" (fuel + 1)).outcome =
        .raised (.valueError s) ∧
      statusCalls (run_sr (baseEnv q) none "isrm" "ov" "tons/year" (fuel + 1)).trace = 1) := by
  have h1 : pollAux q (fuel + 1) i = some (.failed s (i + 1)) := by
    simp [pollAux, hq, hr, hc]
  refine ⟨h1, ?_⟩
  intro hi
  subst hi
  have hpoll : poll q (fuel + 1) = some (.failed s 1) := by
    simpa [poll] using h1
  rw [run_sr_baseEnv]
  constructor
  · simp [submitAndRun, baseEnv, hpoll]
  · simp [submitAndRun, baseEnv, hpoll, pollCount, statusCalls, PollResult.queries,
      List.countP_cons, List.countP_append, countP_replicate, isStatusCall,
      startCmd, statusCmd]

/-- C5 witness: the failure step evaluated on a first-query `Failed` answer. -/
theorem poll_job_failure_raises_immediately_witness :
    pollAux (qOf [.ok "Failed"]) (4 + 1) 0 = some (.failed "Failed" (0 + 1)) ∧
    (0 = 0 →
      (run_sr (baseEnv (qOf [.ok "Failed"])) none "isrm" "ov" "tons/year" (4 + 1)).outcome =
        .raised (.valueError "Failed") ∧
      statusCalls (run_sr (baseEnv (qOf [.ok "Failed"])) none "isrm" "ov" "tons/year"
        (4 + 1)).trace = 1) :=
  poll_job_failure_raises_immediately (qOf [.ok "Failed"]) 4 0 "Failed" rfl
    (by decide) (by decide)

/-- C6: when the first non-`Running` answer of the status stream is
`Complete` at offset `n` (so it is the `n + 1`-st query), the poller issues
exactly `n + 1` status queries and terminates successfully; in particular,
on Running, Running, Complete it issues exactly 3 queries, and the
corresponding `run_sr` call records exactly 3 `cloud status` invocations
before invoking `cloud output` (retrieval). -/
theorem poll_n_queries_to_complete (q : Nat → QueryOutcome) (n fuel : Nat)
    (hrun : ∀ k, k < n → q k = .ok "Running") (hc : q n = .ok "Complete")
    (hf : n < fuel) :
    poll q fuel = some (.complete (n + 1)) ∧
    poll (qOf [.ok "Running", .ok "Running", .ok "Complete"]) 10 =
      some (.complete 3) ∧
    statusCalls (run_sr (baseEnv (qOf [.ok "Running", .ok "Running", .ok "Complete"]))
        none "isrm" "ov" "tons/year" 10).trace = 3 ∧
    Action.subproc (outputCmd "/tmp/run/inmap_1.9.0" "run_aqm_1555.75") ∈
      (run_sr (baseEnv (qOf [.ok "Running", .ok "Running", .ok "Complete"]))
        none "isrm" "ov" "tons/year" 10).trace := by
  refine ⟨?_, by decide, by decide, by decide⟩
  have h := pollAux_runs_then_complete q n 0 (fuel - n - 1)
    (by simpa using hrun) (by simpa using hc)
  have hfe : fuel - n - 1 + n + 1 = fuel := by omega
  rw [hfe] at h
  simpa [poll] using h

/-- C6 witness: the counting theorem evaluated on the reference sequence
Running, Running, Complete. -/
theorem poll_n_queries_to_complete_witness :
    poll (qOf [.ok "Running", .ok "Running", .ok "Complete"]) 10 =
      some (.complete (2 + 1)) ∧
    poll (qOf [.ok "Running", .ok "Running", .ok "Complete"]) 10 =
      some (.complete 3) ∧
    statusCalls (run_sr (baseEnv (qOf [.ok "Running", .ok "Running", .ok "Complete"]))
        none "isrm" "ov" "tons/year" 10).trace = 3 ∧
    Action.subproc (outputCmd "/tmp/run/inmap_1.9.0" "run_aqm_1555.75") ∈
      (run_sr (baseEnv (qOf [.ok "Running", .ok "Running", .ok "Complete"]))
        none "isrm" "ov" "tons/year" 10).trace :=
  poll_n_queries_to_complete (qOf [.ok "Running", .ok "Running", .ok "Complete"]) 2 10
    (fun k hk => by interval_cases k <;> rfl) rfl (by omega)

/-- With a warm cache, provisioning is a no-op returning the cached path. -/
theorem provision_cached (env : Env) (p : String) :
    provision env (some p) = ⟨[], some p, .ok p⟩ := rfl

/-- Shape of every provisioning result: the trace holds no cleanup action and
at most one download, a result with an empty cache has an empty trace, and
the outcome is either a resolved executable, a download exception, or an
unsupported-OS error (never a subprocess error). -/
theorem provision_shape (env : Env) (cache : Option String) :
    rmtrees (provision env cache).trace = 0 ∧
    deleteCalls (provision env cache).trace = 0 ∧
    downloads (provision env cache).trace ≤ 1 ∧
    ((provision env cache).cache = none → (provision env cache).trace = []) ∧
    ((∃ exe, (provision env cache).outcome = .ok exe) ∨
      (∃ msg, (provision env cache).outcome = .raised (.exception msg)) ∨
      (∃ msg, (provision env cache).outcome = .raised (.osError msg))) := by
  rcases cache with _ | p
  · by_cases hw : env.system = "Windows" <;> by_cases hd : env.system = "Darwin" <;>
      by_cases hl : env.system = "Linux" <;>
        rcases hok : responseOk env.binResp <;>
          simp [provision, dlStep, download, hw, hd, hl, hok, rmtrees, deleteCalls,
            downloads, isRmtree, isDeleteCall, isDownload, List.countP_cons]
  · simp [provision_cached, rmtrees, deleteCalls, downloads]

/-- Counting facts about the post-provisioning stage: its trace downloads
nothing, `rmtree` and `cloud delete` are performed the same number of times,
at most once, and exactly once precisely when the call returned normally or
failed only at the final `cloud delete` step. -/
theorem submitAndRun_counts (env : Env) (exe jn ef mp ov eu : String) (fuel : Nat) :
    downloads (submitAndRun env exe jn ef mp ov eu fuel).1 = 0 ∧
    rmtrees (submitAndRun env exe jn ef mp ov eu fuel).1 =
      deleteCalls (submitAndRun env exe jn ef mp ov eu fuel).1 ∧
    rmtrees (submitAndRun env exe jn ef mp ov eu fuel).1 ≤ 1 ∧
    (rmtrees (submitAndRun env exe jn ef mp ov eu fuel).1 = 1 ↔
      (submitAndRun env exe jn ef mp ov eu fuel).2 = .ok ∨
      ∃ x, (submitAndRun env exe jn ef mp ov eu fuel).2 =
        .raised (.calledProcessError (deleteCmd x jn))) := by
  by_cases hs : env.startOk
  · rcases hp : poll env.status fuel with _ | r
    · simp [submitAndRun, hs, hp, downloads, rmtrees, deleteCalls, isDownload,
        isRmtree, isDeleteCall, List.countP_cons, List.countP_append,
        countP_replicate, startCmd, statusCmd]
    · rcases r with k | ⟨s, k⟩
      · by_cases ho : env.outputOk
        · by_cases hread : env.readOk
          · by_cases hdel : env.deleteOk <;>
              simp [submitAndRun, hs, hp, ho, hread, hdel, downloads, rmtrees,
                deleteCalls, isDownload, isRmtree, isDeleteCall, List.countP_cons,
                List.countP_append, countP_replicate, startCmd, statusCmd,
                outputCmd, deleteCmd]
          · simp [submitAndRun, hs, hp, ho, hread, downloads, rmtrees, deleteCalls,
              isDownload, isRmtree, isDeleteCall, List.countP_cons,
              List.countP_append, countP_replicate, startCmd, statusCmd, outputCmd,
              deleteCmd]
        · simp [submitAndRun, hs, hp, ho, downloads, rmtrees, deleteCalls,
            isDownload, isRmtree, isDeleteCall, List.countP_cons,
            List.countP_append, countP_replicate, startCmd, statusCmd, outputCmd,
            deleteCmd]
      · simp [submitAndRun, hs, hp, downloads, rmtrees, deleteCalls, isDownload,
          isRmtree, isDeleteCall, List.countP_cons, List.countP_append,
          countP_replicate, startCmd, statusCmd]
  · simp [submitAndRun, hs, downloads, rmtrees, deleteCalls, isDownload, isRmtree,
      isDeleteCall, List.countP_cons, startCmd, deleteCmd]

/-- Branch evaluation: unknown model. -/
theorem run_sr_eq_invalid (env : Env) (cache : Option String)
    (model ov eu : String) (fuel : Nat)
    (hm : model_paths.lookup model = none) :
    run_sr env cache model ov eu fuel = ⟨[], cache, .raised (invalidModelError model)⟩ := by
  simp [run_sr, hm]

/-- Branch evaluation: valid model but provisioning raised. -/
theorem run_sr_eq_provision_raised (env : Env) (cache : Option String)
    (model ov eu : String) (fuel : Nat) (mp : String)
    (pt : List Action) (c2 : Option String) (e : PyError)
    (hm : model_paths.lookup model = some mp)
    (hprov : provision env cache = ⟨pt, c2, .raised e⟩) :
    run_sr env cache model ov eu fuel =
      ⟨.writeEmis (pathJoin env.tmpdir ("run_aqm_" ++ env.jobStamp ++ ".shp")) :: pt,
        c2, .raised e⟩ := by
  simp [run_sr, hm, hprov]

/-- Branch evaluation: valid model and provisioning resolved an executable. -/
theorem run_sr_eq_provisioned (env : Env) (cache : Option String)
    (model ov eu : String) (fuel : Nat) (mp : String)
    (pt : List Action) (c2 : Option String) (exe : String)
    (hm : model_paths.lookup model = some mp)
    (hprov : provision env cache = ⟨pt, c2, .ok exe⟩) :
    run_sr env cache model ov eu fuel =
      ⟨.writeEmis (pathJoin env.tmpdir ("run_aqm_" ++ env.jobStamp ++ ".shp")) ::
        (pt ++ (submitAndRun env exe ("run_aqm_" ++ env.jobStamp)
          (pathJoin env.tmpdir ("run_aqm_" ++ env.jobStamp ++ ".shp")) mp ov eu fuel).1),
        c2,
        (submitAndRun env exe ("run_aqm_" ++ env.jobStamp)
          (pathJoin env.tmpdir ("run_aqm_" ++ env.jobStamp ++ ".shp")) mp ov eu fuel).2⟩ := by
  simp [run_sr, hm, hprov]

/-- Counting distributes over trace concatenation. -/
theorem rmtrees_append (a b : List Action) :
    rmtrees (a ++ b) = rmtrees a + rmtrees b := by
  simp [rmtrees, List.countP_append]

/-- Counting distributes over trace concatenation. -/
theorem deleteCalls_append (a b : List Action) :
    deleteCalls (a ++ b) = deleteCalls a + deleteCalls b := by
  simp [deleteCalls, List.countP_append]

/-- Counting distributes over trace concatenation. -/
theorem downloads_append (a b : List Action) :
    downloads (a ++ b) = downloads a + downloads b := by
  simp [downloads, List.countP_append]

/-- The emissions write is not a cleanup or download action. -/
theorem counts_cons_writeEmis (p : String) (l : List Action) :
    rmtrees (.writeEmis p :: l) = rmtrees l ∧
    deleteCalls (.writeEmis p :: l) = deleteCalls l ∧
    downloads (.writeEmis p :: l) = downloads l := by
  simp [rmtrees, deleteCalls, downloads, List.countP_cons, isRmtree, isDeleteCall,
    isDownload]

/-- C1 counterexample: a run in which submission succeeded (the `cloud start`
invocation is in the trace) but polling raised the job-failure ValueError —
no cleanup action is performed at all, although the claim requires exactly
one `rmtree` and one `cloud delete` on this path. -/
theorem run_sr_cleanup_skipped_on_job_failure :
    Action.subproc (startCmd "/tmp/run/inmap_1.9.0" "run_aqm_1555.75"
        "/tmp/run/run_aqm_1555.75.shp" "/data/isrmv121/isrm_v1.2.1.ncf" "ov" "tons/year") ∈
      (run_sr (baseEnv (qOf [.ok "Failed"])) none "isrm" "ov" "tons/year" 5).trace ∧
    (run_sr (baseEnv (qOf [.ok "Failed"])) none "isrm" "ov" "tons/year" 5).outcome =
      .raised (.valueError "Failed") ∧
    rmtrees (run_sr (baseEnv (qOf [.ok "Failed"])) none "isrm" "ov" "tons/year" 5).trace = 0 ∧
    deleteCalls (run_sr (baseEnv (qOf [.ok "Failed"])) none "isrm" "ov" "tons/year" 5).trace
      = 0 := by
  decide

/-- C1 (amended): in every `run_sr` call, the local `rmtree` and the remote
`cloud delete` are performed the same number of times and at most once, and
they are performed (exactly once, before the call returns or the delete
failure propagates) precisely when the run reached cleanup — the call either
returned normally or failed only at the final `cloud delete`.  On every other
path — invalid model, provisioning failure, submission failure, job-failure
ValueError from polling, `cloud output` failure, or output-parse failure —
no cleanup action is performed. -/
theorem run_sr_cleanup_only_after_successful_retrieval
    (env : Env) (cache : Option String) (model ov eu : String) (fuel : Nat) :
    rmtrees (run_sr env cache model ov eu fuel).trace =
      deleteCalls (run_sr env cache model ov eu fuel).trace ∧
    rmtrees (run_sr env cache model ov eu fuel).trace ≤ 1 ∧
    (rmtrees (run_sr env cache model ov eu fuel).trace = 1 ↔
      (run_sr env cache model ov eu fuel).outcome = .ok ∨
      ∃ x, (run_sr env cache model ov eu fuel).outcome =
        .raised (.calledProcessError (deleteCmd x ("run_aqm_" ++ env.jobStamp)))) := by
  rcases hm : model_paths.lookup model with _ | mp
  · rw [run_sr_eq_invalid env cache model ov eu fuel hm]
    simp [rmtrees, deleteCalls, invalidModelError_msg]
  · have hps := provision_shape env cache
    rcases hprov : provision env cache with ⟨pt, c2, po⟩
    rw [hprov] at hps
    dsimp only at hps
    rcases po with exe | e
    · obtain ⟨hpt1, hpt2, -, -, -⟩ := hps
      obtain ⟨-, hrd, hle, hiff⟩ := submitAndRun_counts env exe ("run_aqm_" ++ env.jobStamp)
        (pathJoin env.tmpdir ("run_aqm_" ++ env.jobStamp ++ ".shp")) mp ov eu fuel
      rw [run_sr_eq_provisioned env cache model ov eu fuel mp pt c2 exe hm hprov]
      dsimp only
      rw [(counts_cons_writeEmis _ _).1, (counts_cons_writeEmis _ _).2.1,
        rmtrees_append, deleteCalls_append, hpt1, hpt2]
      simpa using ⟨hrd, hle, hiff⟩
    · obtain ⟨hpt1, hpt2, -, -, hout⟩ := hps
      rw [run_sr_eq_provision_raised env cache model ov eu fuel mp pt c2 e hm hprov]
      dsimp only
      rw [(counts_cons_writeEmis _ _).1, (counts_cons_writeEmis _ _).2.1, hpt1, hpt2]
      rcases hout with ⟨x, hx⟩ | ⟨msg, hmsg⟩ | ⟨msg, hmsg⟩
      · exact absurd hx (by simp)
      · have he : e = .exception msg := by injection hmsg
        subst he
        simp
      · have he : e = .osError msg := by injection hmsg
        subst he
        simp

/-- Totals distribute over a cons of run results. -/
theorem totalDownloads_cons (r : RunResult) (rs : List RunResult) :
    totalDownloads (r :: rs) = downloads r.trace + totalDownloads rs := by
  simp [totalDownloads]

/-- A call that starts with a warm cache keeps it and downloads nothing. -/
theorem run_sr_cached (env : Env) (p : String) (model ov eu : String) (fuel : Nat) :
    (run_sr env (some p) model ov eu fuel).cache = some p ∧
    downloads (run_sr env (some p) model ov eu fuel).trace = 0 := by
  rcases hm : model_paths.lookup model with _ | mp
  · rw [run_sr_eq_invalid env (some p) model ov eu fuel hm]
    simp [downloads]
  · rw [run_sr_eq_provisioned env (some p) model ov eu fuel mp [] (some p) p hm
      (provision_cached env p)]
    dsimp only
    obtain ⟨hd, -, -, -⟩ := submitAndRun_counts env p ("run_aqm_" ++ env.jobStamp)
      (pathJoin env.tmpdir ("run_aqm_" ++ env.jobStamp ++ ".shp")) mp ov eu fuel
    refine ⟨rfl, ?_⟩
    rw [(counts_cons_writeEmis _ _).2.2]
    simpa [downloads_append] using hd

/-- Any single call downloads at most once, and a call that leaves the cache
empty downloaded nothing (the cache is assigned before the download runs, so
even a failed download leaves it set). -/
theorem run_sr_download_invariant (env : Env) (cache : Option String)
    (model ov eu : String) (fuel : Nat) :
    downloads (run_sr env cache model ov eu fuel).trace ≤ 1 ∧
    ((run_sr env cache model ov eu fuel).cache = none →
      downloads (run_sr env cache model ov eu fuel).trace = 0) := by
  rcases hm : model_paths.lookup model with _ | mp
  · rw [run_sr_eq_invalid env cache model ov eu fuel hm]
    simp [downloads]
  · have hps := provision_shape env cache
    rcases hprov : provision env cache with ⟨pt, c2, po⟩
    rw [hprov] at hps
    dsimp only at hps
    obtain ⟨-, -, hdle, hczero, -⟩ := hps
    rcases po with exe | e
    · obtain ⟨hd, -, -, -⟩ := submitAndRun_counts env exe ("run_aqm_" ++ env.jobStamp)
        (pathJoin env.tmpdir ("run_aqm_" ++ env.jobStamp ++ ".shp")) mp ov eu fuel
      rw [run_sr_eq_provisioned env cache model ov eu fuel mp pt c2 exe hm hprov]
      dsimp only
      rw [(counts_cons_writeEmis _ _).2.2, downloads_append, hd]
      exact ⟨by omega, fun hc => by simp [hczero hc, downloads]⟩
    · rw [run_sr_eq_provision_raised env cache model ov eu fuel mp pt c2 e hm hprov]
      dsimp only
      rw [(counts_cons_writeEmis _ _).2.2]
      exact ⟨hdle, fun hc => by simp [hczero hc, downloads]⟩

/-- Once the cache is warm, a whole sequence of calls downloads nothing. -/
theorem runSeq_cached (cs : List CallSpec) :
    ∀ p, totalDownloads (runSeq cs (some p)) = 0 := by
  induction cs with
  | nil => intro p; rfl
  | cons c cs ih =>
    intro p
    have h := run_sr_cached c.env p c.model c.outputVarsJson c.emisUnits c.fuel
    simp only [runSeq]
    rw [totalDownloads_cons, h.2, h.1, ih p]

/-- C4: across any sequence of `run_sr` calls in one process (the cache
threaded from call to call, starting unset), the executable is downloaded at
most once in total; any call entered with a warm cache keeps the cached path
and performs no download; and on the all-succeeding environment the first
call does download exactly once. -/
theorem executable_downloaded_at_most_once (calls : List CallSpec) :
    totalDownloads (runSeq calls none) ≤ 1 ∧
    (∀ (c : CallSpec) (p : String),
      (run_sr c.env (some p) c.model c.outputVarsJson c.emisUnits c.fuel).cache = some p ∧
      downloads (run_sr c.env (some p) c.model c.outputVarsJson c.emisUnits
        c.fuel).trace = 0) ∧
    downloads (run_sr (baseEnv (qOf [.ok "Complete"])) none "isrm" "ov" "tons/year"
      3).trace = 1 := by
  refine ⟨?_, fun c p => run_sr_cached c.env p c.model c.outputVarsJson c.emisUnits c.fuel,
    by decide⟩
  induction calls with
  | nil => simp [runSeq, totalDownloads]
  | cons c cs ih =>
    simp only [runSeq]
    rw [totalDownloads_cons]
    have hinv := run_sr_download_invariant c.env none c.model c.outputVarsJson
      c.emisUnits c.fuel
    rcases hc2 : (run_sr c.env none c.model c.outputVarsJson c.emisUnits c.fuel).cache
      with _ | p
    · rw [hinv.2 hc2]
      simpa using ih
    · rw [runSeq_cached cs p]
      have := hinv.1
      omega

/-- C10: the `emis_units` argument is never validated — for every unit
string, including values outside the documented set, the all-succeeding run
returns normally, and the string is forwarded verbatim as the value of the
`--EmissionUnits` flag of the `cloud start` command line. -/
theorem emis_units_forwarded_verbatim (u : String) :
    (run_sr (baseEnv (qOf [.ok "Complete"])) none "isrm" "ov" u 3).outcome = .ok ∧
    (run_sr (baseEnv (qOf [.ok "Complete"])) none "isrm" "ov" u 3).trace =
      [.writeEmis "/tmp/run/run_aqm_1555.75.shp",
       .download "https://github.com/spatialmodel/inmap/releases/download/v1.9.0/inmap-v1.9.0-linux-amd64",
       .chmod "/tmp/run/inmap_1.9.0",
       .subproc (startCmd "/tmp/run/inmap_1.9.0" "run_aqm_1555.75"
         "/tmp/run/run_aqm_1555.75.shp" "/data/isrmv121/isrm_v1.2.1.ncf" "ov" u),
       .subproc (statusCmd "/tmp/run/inmap_1.9.0" "run_aqm_1555.75"),
       .subproc (outputCmd "/tmp/run/inmap_1.9.0" "run_aqm_1555.75"),
       .readOutput "run_aqm_1555.75/OutputFile.shp",
       .rmtree "run_aqm_1555.75",
       .subproc (deleteCmd "/tmp/run/inmap_1.9.0" "run_aqm_1555.75")] ∧
    ("--EmissionUnits=" ++ u) ∈ startCmd "/tmp/run/inmap_1.9.0" "run_aqm_1555.75"
      "/tmp/run/run_aqm_1555.75.shp" "/data/isrmv121/isrm_v1.2.1.ncf" "ov" u := by
  refine ⟨rfl, rfl, ?_⟩
  simp [startCmd]

end SrUtil
